import Mathlib

/-!
Shallow embedding of the publish/fetch core of `nstr_report`
(src/nstr_report/nostr.py and src/nstr_report/main.py).

External collaborators (the `nostr_sdk` bindings: relay connections, the
broadcast result of `send_event_builder`, the event batch returned by
`fetch_events`, and the outcomes of `fetch_activity` / `format_activity` /
`publish_note` as seen from `main`) are modelled as explicit world
parameters; the control flow of the repository's own functions is
translated line by line.
-/

namespace NstrReport

/-- Signer produced by `create_signer` (src/nstr_report/nostr.py:36-70).
Remote mode wraps the bunker URI and the app keys for the NIP-46
connection; local mode wraps the parsed private key. -/
inductive Signer where
  | remote (bunkerUri : String) (appKeyHex : Option String)
  | localKeys (privateKeyHex : String)
deriving Repr, DecidableEq

/-- Model of `create_signer` (src/nstr_report/nostr.py:36-70): bunker URI takes the
first branch; otherwise a local key; otherwise `ValueError`.  Python
exceptions are modelled as `Except.error` carrying the exception message. -/
def create_signer (private_key_hex bunker_uri app_key_hex : Option String) :
    Except String Signer :=
  match bunker_uri with
  | some uri => Except.ok (Signer.remote uri app_key_hex)
  | none =>
    match private_key_hex with
    | some key => Except.ok (Signer.localKeys key)
    | none => Except.error "Either private_key_hex or bunker_uri must be provided"

/-- The per-relay outcome collected by `send_event_builder`
(src/nstr_report/nostr.py:128-138): urls that accepted, urls that
failed with an error message, and the event id (already as hex). -/
structure BroadcastOutput where
  success : List String
  failed : List (String × String)
  id : String
deriving Repr, DecidableEq

/-- World behaviour of one attempt of `publish_note_async`: whether a step
before the connection is established raises (e.g. `RelayUrl.parse`),
whether `client.set_metadata` raises, and what `send_event_builder`
does (raise, or return a `BroadcastOutput`). -/
structure AttemptWorld where
  preConnectError : Option String
  metadataError : Option String
  send : Except String BroadcastOutput
deriving Repr

/-- Result of the body of one iteration of the retry loop. -/
inductive AttemptResult where
  | success (idHex : String)
  | failure (msg : String)
deriving Repr, DecidableEq

/-- Holds exactly when the attempt did not return an event id. -/
def AttemptResult.isFailure : AttemptResult → Bool
  | .success _ => false
  | .failure _ => true

/-- The failure message of a failed attempt (junk on success, only used
under a failure hypothesis). -/
def AttemptResult.msg : AttemptResult → String
  | .success idHex => idHex
  | .failure m => m

/-- Connection bookkeeping of one attempt: did `client.connect()` run, did
`client.disconnect()` run, was `send_event_builder` reached. -/
structure AttemptTrace where
  connected : Bool
  disconnected : Bool
  sent : Bool
deriving Repr, DecidableEq

/-- Python renders `None` in an f-string as the string `None`. -/
def optionRepr : Option String → String
  | none => "None"
  | some s => s

/-- The message of the terminal exception of `publish_note_async`
(src/nstr_report/nostr.py:159). -/
def terminalMsg (max_retries : Int) (lastError : Option String) : String :=
  "Failed to publish after " ++ toString max_retries ++ " attempts: " ++
    optionRepr lastError

/-- One iteration of the retry loop of `publish_note_async`
(src/nstr_report/nostr.py:102-151): create the signer, add relays and
connect, optionally push profile metadata, broadcast, disconnect, and
judge success by `success_count > 0`.  An exception at any step is caught
by the `except` block and yields `AttemptResult.failure` with its message;
note that `client.disconnect()` (line 141) runs only when no exception
was raised, since the code has no `finally`. -/
def run_attempt (update_profile : Bool)
    (private_key_hex bunker_uri app_key_hex : Option String)
    (aw : AttemptWorld) : AttemptResult × AttemptTrace :=
  match create_signer private_key_hex bunker_uri app_key_hex with
  | Except.error e => (AttemptResult.failure e, ⟨false, false, false⟩)
  | Except.ok _ =>
    match aw.preConnectError with
    | some e => (AttemptResult.failure e, ⟨false, false, false⟩)
    | none =>
      if update_profile ∧ aw.metadataError.isSome then
        (AttemptResult.failure (optionRepr aw.metadataError), ⟨true, false, false⟩)
      else
        match aw.send with
        | Except.error e => (AttemptResult.failure e, ⟨true, false, true⟩)
        | Except.ok output =>
          if output.success.length > 0 then
            (AttemptResult.success output.id, ⟨true, true, true⟩)
          else
            (AttemptResult.failure
              ("All " ++ toString output.failed.length ++ " relays failed"),
              ⟨true, true, true⟩)

/-- Observable outcome of a whole `publish_note_async` call: the returned
event id or the raised exception's message, how many loop iterations ran,
how many backoff sleeps (`asyncio.sleep(RETRY_DELAY_SECONDS)`) ran, and
the connection trace of each iteration in order. -/
structure PublishRun where
  result : Except String String
  attempts : Nat
  sleeps : Nat
  traces : List AttemptTrace
deriving Repr

/-- The retry loop of `publish_note_async` (src/nstr_report/nostr.py:99-159),
unrolled on the number of remaining iterations: `attempt` is the current
Python loop index, `remaining` the iterations left of
`range(max_retries)`, `lastError` the current value of `last_error`.
The backoff sleep runs only when `attempt < max_retries - 1`
(src/nstr_report/nostr.py:155). -/
def publish_go (update_profile : Bool)
    (private_key_hex bunker_uri app_key_hex : Option String)
    (w : Nat → AttemptWorld) (max_retries : Int) :
    Nat → Nat → Option String → PublishRun
  | _attempt, 0, lastError =>
    { result := Except.error (terminalMsg max_retries lastError),
      attempts := 0, sleeps := 0, traces := [] }
  | attempt, remaining + 1, _lastError =>
    let step := run_attempt update_profile private_key_hex bunker_uri app_key_hex
      (w attempt)
    match step.1 with
    | AttemptResult.success idHex =>
      { result := Except.ok idHex, attempts := 1, sleeps := 0, traces := [step.2] }
    | AttemptResult.failure msg =>
      let rest := publish_go update_profile private_key_hex bunker_uri app_key_hex
        w max_retries (attempt + 1) remaining (some msg)
      { result := rest.result,
        attempts := rest.attempts + 1,
        sleeps := rest.sleeps + (if (attempt : Int) < max_retries - 1 then 1 else 0),
        traces := step.2 :: rest.traces }

/-- Model of `publish_note_async` (src/nstr_report/nostr.py:73-159).  `content` and
`relays` do not influence the modelled observables (their effect flows
through the world `w`); `max_retries` is an `Int` and `range(max_retries)`
has `max_retries.toNat` iterations (empty when non-positive). -/
def publish_note_async (content : String) (relays : List String)
    (private_key_hex bunker_uri app_key_hex : Option String)
    (update_profile : Bool) (max_retries : Int)
    (w : Nat → AttemptWorld) : PublishRun :=
  let _ := content
  let _ := relays
  publish_go update_profile private_key_hex bunker_uri app_key_hex w max_retries
    0 max_retries.toNat none

/-- Substring test over char lists: does `needle` start `hay`? -/
def charsPre : List Char → List Char → Bool
  | [], _ => true
  | _ :: _, [] => false
  | a :: as, b :: bs => a == b && charsPre as bs

/-- Substring test over char lists: does `hay` contain `needle` as a
contiguous run? -/
def charsContain (hay needle : List Char) : Bool :=
  charsPre needle hay ||
    match hay with
    | [] => false
    | _ :: t => charsContain t needle

/-- Python's `needle in hay` substring test on strings. -/
def strContainsSub (hay needle : String) : Bool :=
  charsContain hay.toList needle.toList

/-- An event as seen by `fetch_latest_note_async`: its `created_at`
timestamp and its `content()`. -/
structure NostrEvent where
  createdAt : Nat
  content : String
deriving Repr, DecidableEq

/-- The content test of the loop at src/nstr_report/nostr.py:246-249:
no filter accepts everything, a filter requires the substring. -/
def matchesFilter (contains : Option String) (e : NostrEvent) : Bool :=
  match contains with
  | none => true
  | some s => strContainsSub e.content s

/-- The loop of src/nstr_report/nostr.py:245-251: first event of the
fetched batch (in the order `to_vec` yields) whose content passes the
filter, else `None`.  The leading `is_empty` check is redundant with an
empty iteration. -/
def latestMatching (events : List NostrEvent) (contains : Option String) :
    Option String :=
  (events.find? (matchesFilter contains)).map NostrEvent.content

/-- Connection bookkeeping of one `fetch_latest_note_async` call. -/
structure FetchTrace where
  connected : Bool
  disconnected : Bool
deriving Repr, DecidableEq

/-- Model of `fetch_latest_note_async` (src/nstr_report/nostr.py:206-251).  The
world supplies what the `nostr_sdk` calls do: `pubkeyOk` is whether
`PublicKey.parse` succeeds (it runs after `client.connect()`),
`fetchError` whether `fetch_events` raises, and `relayEvents` the
author's kind-1 events in the newest-first order `to_vec` yields, of
which `fetch_events` returns the first `limit`; the code sets
`limit = 20` when `contains` is given, else `1`
(src/nstr_report/nostr.py:236).  As in the source there is no
`try`/`finally`: an exception after `connect()` skips `disconnect()`. -/
def fetch_latest_note_async (pubkey : String) (relays : List String)
    (contains : Option String) (pubkeyOk : Bool) (fetchError : Option String)
    (relayEvents : List NostrEvent) :
    Except String (Option String) × FetchTrace :=
  let _ := pubkey
  let _ := relays
  if pubkeyOk = false then
    (Except.error "invalid public key", ⟨true, false⟩)
  else
    let limit : Nat := if contains.isSome then 20 else 1
    match fetchError with
    | some e => (Except.error e, ⟨true, false⟩)
    | none =>
      let events := relayEvents.take limit
      (Except.ok (latestMatching events contains), ⟨true, true⟩)

/-- Parsed CLI flags of `main` (src/nstr_report/main.py:48-69). -/
structure Args where
  dryRun : Bool
  updateProfile : Bool
  showConfig : Bool
  repost : Bool
deriving Repr, DecidableEq

/-- The configuration fields `main` consults. -/
structure Config where
  bunkerUri : Option String
  privateKeyHex : Option String
deriving Repr, DecidableEq

/-- The cached daily summary (message and its date). -/
structure CacheData where
  message : String
  date : String
deriving Repr, DecidableEq

/-- The result of `format_activity` as consumed by `main`
(src/nstr_report/main.py:162-166). -/
structure FormatOutput where
  message : String
  aiFailed : Bool
  errorMessage : String
deriving Repr, DecidableEq

/-- World behaviour of one `main` run: the cache on disk, today's date
string, and the outcomes of the out-of-scope collaborators `main` calls
(`fetch_latest_note`, `fetch_activity`, `format_activity`, and the two
`publish_note` calls). -/
structure MainWorld where
  cache : Option CacheData
  today : String
  fetchLatest : Except String (Option String)
  fetchActivity : Except String Nat
  formatOut : FormatOutput
  publishPrimary : Except String String
  publishAngry : Except String String

/-- Observables of one `main` run: the exit code, how many times
`publish_note` was called, and whether the dry-run branch printed the
final message. -/
structure MainResult where
  exit : Int
  publishCalls : Nat
  printedDryRun : Bool
deriving Repr, DecidableEq

/-- The publish tail of `main` (src/nstr_report/main.py:183-221): publish
the primary message (exit 1 on failure), then, only when the AI summary
failed, publish the angry notification inside its own `try` whose failure
is only logged. -/
def mainPublishPhase (aiError : Option String) (w : MainWorld) : MainResult :=
  match w.publishPrimary with
  | Except.error _ => ⟨1, 1, false⟩
  | Except.ok _ =>
    match aiError with
    | none => ⟨0, 1, false⟩
    | some _ =>
      match w.publishAngry with
      | Except.error _ => ⟨0, 2, false⟩
      | Except.ok _ => ⟨0, 2, false⟩

/-- Model of `main` (src/nstr_report/main.py:43-221): show-config exits first; a
missing signer exits 1 before anything else; repost mode takes the
message from a fresh cache or else fetches it from Nostr (requiring a
local private key for the pubkey); fresh mode fetches and formats
activity; each mode prints and exits 0 on `--dry-run` before the publish
tail is reached. -/
def mainRun (args : Args) (config : Config) (w : MainWorld) : MainResult :=
  if args.showConfig then ⟨0, 0, false⟩
  else if config.bunkerUri = none ∧ config.privateKeyHex = none then ⟨1, 0, false⟩
  else if args.repost then
    let cachedFresh : Option String :=
      match w.cache with
      | some c => if c.date = w.today then some c.message else none
      | none => none
    match cachedFresh with
    | some message =>
      let _ := message
      if args.dryRun then ⟨0, 0, true⟩ else mainPublishPhase none w
    | none =>
      match config.privateKeyHex with
      | none => ⟨1, 0, false⟩
      | some _ =>
        match w.fetchLatest with
        | Except.error _ => ⟨1, 0, false⟩
        | Except.ok none => ⟨1, 0, false⟩
        | Except.ok (some latest) =>
          let _ := latest
          if args.dryRun then ⟨0, 0, true⟩ else mainPublishPhase none w
  else
    match w.fetchActivity with
    | Except.error _ => ⟨1, 0, false⟩
    | Except.ok _ =>
      let aiError : Option String :=
        if w.formatOut.aiFailed then some w.formatOut.errorMessage else none
      if args.dryRun then ⟨0, 0, true⟩ else mainPublishPhase aiError w

/-- The `last_error` value held when the retry loop of
`publish_note_async` exits after running `r` further iterations from
loop index `a`, all of them failing: the incoming value when no
iteration remains, else the failure message of the last iteration. -/
def lastErrAux (update_profile : Bool)
    (private_key_hex bunker_uri app_key_hex : Option String)
    (w : Nat → AttemptWorld) (le : Option String) (a : Nat) : Nat → Option String
  | 0 => le
  | r + 1 =>
    some ((run_attempt update_profile private_key_hex bunker_uri app_key_hex
      (w (a + r))).1.msg)

/-- A world where every attempt reaches the broadcast and both relays
reject: `send_event_builder` returns zero successes. -/
def wAllReject : Nat → AttemptWorld := fun _ =>
  { preConnectError := none, metadataError := none,
    send := Except.ok
      { success := [], failed := [("wss://a", "rejected"), ("wss://b", "rejected")],
        id := "id0" } }

/-- A world where every attempt's profile-metadata push raises while the
broadcast itself would have succeeded on relay `wss://a`. -/
def wMetaBoom : Nat → AttemptWorld := fun _ =>
  { preConnectError := none, metadataError := some "metadata boom",
    send := Except.ok { success := ["wss://a"], failed := [], id := "eventid" } }

/-- A world where every attempt's `send_event_builder` raises after the
connection was established. -/
def wSendBoom : Nat → AttemptWorld := fun _ =>
  { preConnectError := none, metadataError := none,
    send := Except.error "send timeout" }

/-- A world where every attempt succeeds on relay `wss://a` at once. -/
def wFirstAccept : Nat → AttemptWorld := fun _ =>
  { preConnectError := none, metadataError := none,
    send := Except.ok
      { success := ["wss://a"], failed := [("wss://b", "timeout")], id := "abc123" } }

/-- A `main` world with benign collaborator outcomes, used to exercise
the control flow of `mainRun` at concrete inputs. -/
def mwDummy : MainWorld :=
  { cache := none, today := "2026-10-12", fetchLatest := Except.ok none,
    fetchActivity := Except.ok 0, formatOut := ⟨"the message", false, ""⟩,
    publishPrimary := Except.ok "id1", publishAngry := Except.ok "id2" }

/-- A concrete newest-first batch of author events used to exercise the
query path at concrete inputs. -/
def sampleEvents : List NostrEvent :=
  [⟨30, "BNOC Daily Summary alpha"⟩, ⟨20, "unrelated note"⟩,
   ⟨10, "BNOC Daily Summary beta"⟩]

lemma run_attempt_success (up : Bool) (pk bu ak : Option String)
    (aw : AttemptWorld) (sg : Signer) (out : BroadcastOutput)
    (hsig : create_signer pk bu ak = Except.ok sg)
    (hconn : aw.preConnectError = none)
    (hmeta : up = true → aw.metadataError = none)
    (hsend : aw.send = Except.ok out)
    (hacc : 0 < out.success.length) :
    run_attempt up pk bu ak aw = (AttemptResult.success out.id, ⟨true, true, true⟩) := by
  unfold run_attempt
  rw [hsig, hconn, hsend]
  cases up with
  | false => simp [hacc]
  | true => simp [hmeta rfl, hacc]

lemma publish_go_all_fail (up : Bool) (pk bu ak : Option String)
    (w : Nat → AttemptWorld) (mr : Int) :
    ∀ (r a : Nat) (le : Option String),
      (∀ i, i < r → (run_attempt up pk bu ak (w (a + i))).1.isFailure = true) →
      (a : Int) + r = mr →
      (publish_go up pk bu ak w mr a r le).attempts = r ∧
      (publish_go up pk bu ak w mr a r le).sleeps = r - 1 ∧
      (publish_go up pk bu ak w mr a r le).result =
        Except.error (terminalMsg mr (lastErrAux up pk bu ak w le a r)) := by
  intro r
  induction r with
  | zero =>
    intro a le _ _
    simp [publish_go, lastErrAux]
  | succ r ih =>
    intro a le hfail hsum
    have h0 : (run_attempt up pk bu ak (w (a + 0))).1.isFailure = true :=
      hfail 0 (Nat.succ_pos r)
    rw [Nat.add_zero] at h0
    rcases hstep : (run_attempt up pk bu ak (w a)).1 with idHex | m
    · rw [hstep] at h0
      simp [AttemptResult.isFailure] at h0
    · have hrest := ih (a + 1) (some m)
        (fun i hi => by
          have hf := hfail (i + 1) (Nat.succ_lt_succ hi)
          rwa [show a + (i + 1) = a + 1 + i by omega] at hf)
        (by push_cast at hsum ⊢; omega)
      simp only [publish_go, hstep]
      refine ⟨by rw [hrest.1], ?_, ?_⟩
      · rcases r with _ | r2
        · have hlt : ¬ ((a : Int) < mr - 1) := by
            push_cast at hsum; omega
          rw [if_neg hlt, hrest.2.1]
        · have hlt : (a : Int) < mr - 1 := by
            push_cast at hsum; omega
          rw [if_pos hlt, hrest.2.1]
          omega
      · rw [hrest.2.2]
        rcases r with _ | r2
        · simp only [lastErrAux, Nat.add_zero, hstep, AttemptResult.msg]
        · simp only [lastErrAux]
          rw [show a + 1 + r2 = a + (r2 + 1) by omega]

lemma mainPublishPhase_angry (ae : Option String) (w : MainWorld)
    (x : Except String String) :
    mainPublishPhase ae { w with publishAngry := x } = mainPublishPhase ae w := by
  rcases w with ⟨c, t, fl, fa, fo, pp, pa⟩
  unfold mainPublishPhase
  cases pp <;> cases ae <;> cases x <;> cases pa <;> rfl

lemma mainRun_angry (args : Args) (config : Config) (w : MainWorld)
    (x : Except String String) :
    mainRun args config { w with publishAngry := x } = mainRun args config w := by
  rcases w with ⟨c, t, fl, fa, fo, pp, pa⟩
  unfold mainRun
  dsimp only
  have hphase := fun ae =>
    mainPublishPhase_angry ae ⟨c, t, fl, fa, fo, pp, pa⟩ x
  repeat' split
  all_goals first
    | rfl
    | exact hphase none
    | exact hphase (some fo.errorMessage)

lemma find_first_newest (p : NostrEvent → Bool) :
    ∀ (l : List NostrEvent),
      l.Pairwise (fun a b => b.createdAt ≤ a.createdAt) →
      ∀ x, l.find? p = some x →
        x ∈ l ∧ p x = true ∧ ∀ y ∈ l, p y = true → y.createdAt ≤ x.createdAt := by
  intro l
  induction l with
  | nil =>
    intro _ x hfind
    simp at hfind
  | cons a t ih =>
    intro hsorted x hfind
    rcases List.pairwise_cons.mp hsorted with ⟨ha, ht⟩
    by_cases hpa : p a = true
    · rw [List.find?_cons_of_pos _ hpa] at hfind
      injection hfind with hx
      subst hx
      refine ⟨List.mem_cons_self _ _, hpa, ?_⟩
      intro y hy _
      rcases List.mem_cons.mp hy with h | h
      · rw [h]
      · exact ha y h
    · rw [List.find?_cons_of_neg _ (by simpa using hpa)] at hfind
      rcases ih ht x hfind with ⟨hmem, hpx, hmax⟩
      refine ⟨List.mem_cons_of_mem _ hmem, hpx, ?_⟩
      intro y hy hpy
      rcases List.mem_cons.mp hy with h | h
      · rw [h] at hpy
        exact absurd hpy hpa
      · exact hmax y h hpy

/-- Claim C9: when both a bunker URI and a local private key are
supplied, `create_signer` takes the remote NIP-46 branch: it returns the
remote signer built from the bunker URI, ignoring the local private key,
rather than failing over two configured signing methods. -/
theorem c9_bunker_precedence (pk bu : String) (ak : Option String) :
    create_signer (some pk) (some bu) ak = Except.ok (Signer.remote bu ak) := rfl

/-- Claim C10: with `max_retries` zero or negative, `range(max_retries)`
is empty, so `publish_note_async` performs zero attempts — no signer
acquisition, connection or broadcast (the trace list is empty) — and
immediately raises the terminal exception whose reason part is the
initial `None`. -/
theorem c10_zero_retries (content : String) (relays : List String)
    (pk bu ak : Option String) (up : Bool) (mr : Int) (w : Nat → AttemptWorld)
    (hmr : mr ≤ 0) :
    publish_note_async content relays pk bu ak up mr w =
      { result := Except.error (terminalMsg mr none),
        attempts := 0, sleeps := 0, traces := [] } := by
  have ht : mr.toNat = 0 := by omega
  unfold publish_note_async
  rw [ht]
  rfl

/-- Witness for C10: `max_retries = 0` at a concrete call; the raised
message renders the initial `None`. -/
theorem c10_witness :
    publish_note_async "hello" ["wss://a"] (some "aa") none none false 0
      wAllReject =
      { result := Except.error (terminalMsg 0 none),
        attempts := 0, sleeps := 0, traces := [] } :=
  c10_zero_retries "hello" ["wss://a"] (some "aa") none none false 0 wAllReject
    (by decide)

/-- Claim C1: when the first attempt of `publish_note_async` reaches the
broadcast and at least one relay accepts it, the call returns that
broadcast's event id as hex after exactly one attempt and zero backoff
sleeps — the other endpoints' rejections recorded in `output.failed`
trigger no retry. -/
theorem c1_quorum_of_one (content : String) (relays : List String)
    (pk bu ak : Option String) (up : Bool) (mr : Int) (w : Nat → AttemptWorld)
    (sg : Signer) (out : BroadcastOutput)
    (hsig : create_signer pk bu ak = Except.ok sg)
    (hconn : (w 0).preConnectError = none)
    (hmeta : up = true → (w 0).metadataError = none)
    (hsend : (w 0).send = Except.ok out)
    (hacc : 0 < out.success.length)
    (hmr : 0 < mr) :
    publish_note_async content relays pk bu ak up mr w =
      { result := Except.ok out.id, attempts := 1, sleeps := 0,
        traces := [⟨true, true, true⟩] } := by
  have hk : mr.toNat = (mr.toNat - 1) + 1 := by omega
  unfold publish_note_async
  rw [hk]
  simp only [publish_go,
    run_attempt_success up pk bu ak (w 0) sg out hsig hconn hmeta hsend hacc]

/-- Witness for C1: relay `wss://a` accepts and `wss://b` times out on
the first attempt; the call returns the event id after one attempt. -/
theorem c1_witness :
    publish_note_async "hello" ["wss://a", "wss://b"] (some "aa") none none
      false 3 wFirstAccept =
      { result := Except.ok "abc123", attempts := 1, sleeps := 0,
        traces := [⟨true, true, true⟩] } :=
  c1_quorum_of_one "hello" ["wss://a", "wss://b"] (some "aa") none none false 3
    wFirstAccept (Signer.localKeys "aa")
    { success := ["wss://a"], failed := [("wss://b", "timeout")], id := "abc123" }
    rfl rfl (by decide) rfl (by decide) (by decide)

/-- Claim C2 (amended): when every attempt yields zero acceptances,
`publish_note_async` performs exactly `max_retries` attempts with the
fixed backoff wait between consecutive attempts — `max_retries - 1`
waits, since the sleep is skipped after the last attempt — and then
raises the terminal exception carrying the last attempt's failure
reason. -/
theorem c2_all_attempts_fail (content : String) (relays : List String)
    (pk bu ak : Option String) (up : Bool) (mr : Int) (w : Nat → AttemptWorld)
    (hmr : 0 < mr)
    (hfail : ∀ i, i < mr.toNat →
      (run_attempt up pk bu ak (w i)).1.isFailure = true) :
    (publish_note_async content relays pk bu ak up mr w).attempts = mr.toNat ∧
    (publish_note_async content relays pk bu ak up mr w).sleeps = mr.toNat - 1 ∧
    (publish_note_async content relays pk bu ak up mr w).result =
      Except.error (terminalMsg mr
        (some ((run_attempt up pk bu ak (w (mr.toNat - 1))).1.msg))) := by
  have h := publish_go_all_fail up pk bu ak w mr mr.toNat 0 none
    (fun i hi => by simpa using hfail i hi) (by omega)
  obtain ⟨k, hk⟩ : ∃ k, mr.toNat = k + 1 := ⟨mr.toNat - 1, by omega⟩
  simp only [publish_note_async]
  refine ⟨h.1, h.2.1, ?_⟩
  rw [h.2.2, hk]
  simp only [lastErrAux, Nat.zero_add, Nat.add_sub_cancel]

/-- Witness for C2: three attempts against two always-rejecting relays. -/
theorem c2_witness :
    (publish_note_async "hello" ["wss://a", "wss://b"] (some "aa") none none
      false 3 wAllReject).attempts = (3 : Int).toNat ∧
    (publish_note_async "hello" ["wss://a", "wss://b"] (some "aa") none none
      false 3 wAllReject).sleeps = (3 : Int).toNat - 1 ∧
    (publish_note_async "hello" ["wss://a", "wss://b"] (some "aa") none none
      false 3 wAllReject).result =
      Except.error (terminalMsg 3
        (some ((run_attempt false (some "aa") none none
          (wAllReject ((3 : Int).toNat - 1))).1.msg))) :=
  c2_all_attempts_fail "hello" ["wss://a", "wss://b"] (some "aa") none none
    false 3 wAllReject (by decide) (fun i _ => rfl)

/-- Claim C2 counterexample: with `max_retries = 3` and both relays
rejecting every attempt, the code performs three attempts but only two
backoff waits, not the three waits the claim (and the spec's example
scenario) states. -/
theorem c2_counterexample :
    (publish_note_async "hello" ["wss://a", "wss://b"] (some "aa") none none
      false 3 wAllReject).attempts = 3 ∧
    (publish_note_async "hello" ["wss://a", "wss://b"] (some "aa") none none
      false 3 wAllReject).sleeps = 2 ∧
    ¬ (publish_note_async "hello" ["wss://a", "wss://b"] (some "aa") none none
      false 3 wAllReject).sleeps = 3 := by
  refine ⟨rfl, rfl, by decide⟩

/-- Claim C3 (amended): with neither a private key nor a bunker URI,
`create_signer` raises the configuration `ValueError`; but
`publish_note_async` does not surface it immediately — the exception is
caught inside the retry loop on every attempt, so all `max_retries`
attempts and the `max_retries - 1` backoff waits are consumed before the
terminal exception is raised with the `ValueError` message as its
reason.  (Only `main`'s up-front config check, which exits before
calling publish, keeps this path from being exercised.) -/
theorem c3_no_signer_config (content : String) (relays : List String)
    (ak : Option String) (up : Bool) (mr : Int) (w : Nat → AttemptWorld)
    (hmr : 0 < mr) :
    create_signer none none ak =
      Except.error "Either private_key_hex or bunker_uri must be provided" ∧
    (publish_note_async content relays none none ak up mr w).attempts =
      mr.toNat ∧
    (publish_note_async content relays none none ak up mr w).sleeps =
      mr.toNat - 1 ∧
    (publish_note_async content relays none none ak up mr w).result =
      Except.error (terminalMsg mr
        (some "Either private_key_hex or bunker_uri must be provided")) := by
  have h := publish_go_all_fail up none none ak w mr mr.toNat 0 none
    (fun i _ => rfl) (by omega)
  obtain ⟨k, hk⟩ : ∃ k, mr.toNat = k + 1 := ⟨mr.toNat - 1, by omega⟩
  simp only [publish_note_async]
  refine ⟨rfl, h.1, h.2.1, ?_⟩
  rw [h.2.2, hk]
  rfl

/-- Witness for C3 at `max_retries = 3` with no signing method. -/
theorem c3_witness :
    create_signer none none none =
      Except.error "Either private_key_hex or bunker_uri must be provided" ∧
    (publish_note_async "m" ["wss://a"] none none none false 3
      wAllReject).attempts = (3 : Int).toNat ∧
    (publish_note_async "m" ["wss://a"] none none none false 3
      wAllReject).sleeps = (3 : Int).toNat - 1 ∧
    (publish_note_async "m" ["wss://a"] none none none false 3
      wAllReject).result =
      Except.error (terminalMsg 3
        (some "Either private_key_hex or bunker_uri must be provided")) :=
  c3_no_signer_config "m" ["wss://a"] none false 3 wAllReject (by decide)

/-- Claim C3 counterexample: with no signing method configured and
`max_retries = 3`, `publish_note_async` consumes three attempts and two
backoff waits before raising — the configuration error is neither
surfaced immediately nor kept out of the retry budget, refuting the
claim's no-retry, immediate-surfacing behaviour. -/
theorem c3_counterexample :
    ¬ (publish_note_async "m" ["wss://a"] none none none false 3
      wAllReject).attempts = 0 ∧
    ¬ (publish_note_async "m" ["wss://a"] none none none false 3
      wAllReject).sleeps = 0 ∧
    (publish_note_async "m" ["wss://a"] none none none false 3
      wAllReject).result =
      Except.error
        "Failed to publish after 3 attempts: Either private_key_hex or bunker_uri must be provided" := by
  refine ⟨by decide, by decide, rfl⟩

/-- Claim C4 (amended): the profile-metadata push is not best-effort in
`publish_note_async` — when `client.set_metadata` raises, the attempt
fails with that exception before the primary broadcast is reached
(`sent = false`) and the failure counts toward the retry budget, so it
can change the primary operation's result; the failure-notification
publish invoked from `main`, by contrast, is genuinely best-effort: its
outcome never changes `main`'s result. -/
theorem c4_profile_push_aborts_attempt (pk bu ak : Option String) (sg : Signer)
    (e : String) (aw : AttemptWorld) (args : Args) (config : Config)
    (w : MainWorld) (x y : Except String String)
    (hsig : create_signer pk bu ak = Except.ok sg)
    (hconn : aw.preConnectError = none)
    (hmeta : aw.metadataError = some e) :
    run_attempt true pk bu ak aw =
      (AttemptResult.failure e, ⟨true, false, false⟩) ∧
    mainRun args config { w with publishAngry := x } =
      mainRun args config { w with publishAngry := y } := by
  constructor
  · unfold run_attempt
    rw [hsig, hconn, hmeta]
    simp [optionRepr]
  · exact (mainRun_angry args config w x).trans (mainRun_angry args config w y).symm

/-- Witness for C4: a concrete attempt whose metadata push raises, and a
concrete `main` run whose angry-notification publish fails versus
succeeds. -/
theorem c4_witness :
    run_attempt true (some "aa") none none (wMetaBoom 0) =
      (AttemptResult.failure "metadata boom", ⟨true, false, false⟩) ∧
    mainRun ⟨false, false, false, false⟩ ⟨none, some "aa"⟩
        { mwDummy with publishAngry := Except.error "angry failed" } =
      mainRun ⟨false, false, false, false⟩ ⟨none, some "aa"⟩
        { mwDummy with publishAngry := Except.ok "id2" } :=
  c4_profile_push_aborts_attempt (some "aa") none none (Signer.localKeys "aa")
    "metadata boom" (wMetaBoom 0) ⟨false, false, false, false⟩
    ⟨none, some "aa"⟩ mwDummy (Except.error "angry failed") (Except.ok "id2")
    rfl rfl rfl

/-- Claim C4 counterexample: with the profile push raising on the only
attempt while the broadcast itself would succeed on relay `wss://a`,
`publish_note_async` with `update_profile` raises the terminal exception
instead of returning the event id that the identical call without
`update_profile` returns, and the trace shows the primary broadcast was
never reached — the profile failure aborted and changed the primary
result. -/
theorem c4_counterexample :
    (publish_note_async "hello" ["wss://a"] (some "aa") none none true 1
      wMetaBoom).result =
      Except.error "Failed to publish after 1 attempts: metadata boom" ∧
    (publish_note_async "hello" ["wss://a"] (some "aa") none none false 1
      wMetaBoom).result = Except.ok "eventid" ∧
    (publish_note_async "hello" ["wss://a"] (some "aa") none none true 1
      wMetaBoom).traces = [⟨true, false, false⟩] := by
  refine ⟨rfl, rfl, by decide⟩

/-- Claim C5 fails on the code: neither function has a `try`/`finally`
around its connected section, so an exception raised after
`client.connect()` skips `client.disconnect()`.  Concretely, when
`send_event_builder` raises, the publish attempt ends connected but not
disconnected; and when `PublicKey.parse` raises (it runs after the
connect), the fetch ends connected but not disconnected. -/
theorem c5_connection_leak_on_exception :
    (publish_note_async "hello" ["wss://a"] (some "aa") none none false 1
      wSendBoom).traces =
      [{ connected := true, disconnected := false, sent := true }] ∧
    (fetch_latest_note_async "badpubkey" ["wss://a"] none false none []).2 =
      { connected := true, disconnected := false } := by
  decide

/-- Claim C6: with a content filter, `fetch_latest_note_async` fetches a
batch of up to 20 events in the newest-first order the relay yields and
returns the content of the newest fetched event containing the filter
substring, or `None` when no event of the batch matches; without a
filter it fetches only the single newest event. -/
theorem c6_filter_batch (pubkey : String) (relays : List String) (s : String)
    (relayEvents : List NostrEvent)
    (hsorted : relayEvents.Pairwise (fun a b => b.createdAt ≤ a.createdAt)) :
    (fetch_latest_note_async pubkey relays (some s) true none relayEvents).1 =
      Except.ok (latestMatching (relayEvents.take 20) (some s)) ∧
    (∀ c, latestMatching (relayEvents.take 20) (some s) = some c →
      ∃ e, e ∈ relayEvents.take 20 ∧ e.content = c ∧
        matchesFilter (some s) e = true ∧
        ∀ e2 ∈ relayEvents.take 20, matchesFilter (some s) e2 = true →
          e2.createdAt ≤ e.createdAt) ∧
    (latestMatching (relayEvents.take 20) (some s) = none →
      ∀ e ∈ relayEvents.take 20, matchesFilter (some s) e = false) ∧
    (fetch_latest_note_async pubkey relays none true none relayEvents).1 =
      Except.ok (relayEvents.head?.map NostrEvent.content) := by
  have hsorted20 : (relayEvents.take 20).Pairwise
      (fun a b => b.createdAt ≤ a.createdAt) :=
    List.Pairwise.sublist (List.take_sublist 20 relayEvents) hsorted
  refine ⟨?_, ?_, ?_, ?_⟩
  · simp [fetch_latest_note_async]
  · intro c hc
    unfold latestMatching at hc
    rcases hfind : (relayEvents.take 20).find? (matchesFilter (some s)) with _ | x
    · rw [hfind] at hc
      simp at hc
    · rw [hfind] at hc
      simp only [Option.map_some'] at hc
      injection hc with hc
      rcases find_first_newest _ _ hsorted20 x hfind with ⟨hmem, hpx, hmax⟩
      exact ⟨x, hmem, hc, hpx, hmax⟩
  · intro hnone e he
    unfold latestMatching at hnone
    rcases hfind : (relayEvents.take 20).find? (matchesFilter (some s)) with _ | x
    · have hall := List.find?_eq_none.mp hfind e he
      simpa using hall
    · rw [hfind] at hnone
      simp at hnone
  · rcases relayEvents with _ | ⟨a, t⟩ <;>
      simp [fetch_latest_note_async, latestMatching, matchesFilter, List.find?]

/-- Witness for C6 on a concrete sorted batch: the newest event whose
content contains the filter substring is returned. -/
theorem c6_witness :
    (fetch_latest_note_async "npub1x" ["wss://a"] (some "BNOC") true none
      sampleEvents).1 =
      Except.ok (latestMatching (sampleEvents.take 20) (some "BNOC")) ∧
    (∀ c, latestMatching (sampleEvents.take 20) (some "BNOC") = some c →
      ∃ e, e ∈ sampleEvents.take 20 ∧ e.content = c ∧
        matchesFilter (some "BNOC") e = true ∧
        ∀ e2 ∈ sampleEvents.take 20, matchesFilter (some "BNOC") e2 = true →
          e2.createdAt ≤ e.createdAt) ∧
    (latestMatching (sampleEvents.take 20) (some "BNOC") = none →
      ∀ e ∈ sampleEvents.take 20, matchesFilter (some "BNOC") e = false) ∧
    (fetch_latest_note_async "npub1x" ["wss://a"] none true none
      sampleEvents).1 =
      Except.ok (sampleEvents.head?.map NostrEvent.content) :=
  c6_filter_batch "npub1x" ["wss://a"] "BNOC" sampleEvents (by decide)

/-- Claim C7: when no event of the fetched batch passes the filter — in
particular when no connected relay returned any event at all —
`fetch_latest_note_async` returns `None` as a normal result
(`Except.ok none`), not an error. -/
theorem c7_absence_is_none (pubkey : String) (relays : List String)
    (contains : Option String) (relayEvents : List NostrEvent)
    (hnone : ∀ e ∈ relayEvents.take (if contains.isSome then 20 else 1),
      matchesFilter contains e = false) :
    (fetch_latest_note_async pubkey relays contains true none relayEvents).1 =
      Except.ok none := by
  unfold fetch_latest_note_async
  simp only [latestMatching]
  rw [List.find?_eq_none.mpr (fun x hx => by simp [hnone x hx])]
  simp

/-- Witness for C7: no relay returned any event and no filter is set. -/
theorem c7_witness :
    (fetch_latest_note_async "npub1x" ["wss://a"] none true none []).1 =
      Except.ok none :=
  c7_absence_is_none "npub1x" ["wss://a"] none [] (by simp)

/-- Claim C8 (amended): on every `--dry-run` execution of `main`,
`publish_note` is never called; and outside `--show-config`, a dry run
exits 0 exactly when it printed the final message — the dry-run paths
that fail before a message exists (no signer configured, stale cache
with no usable fetch, activity-fetch failure) exit 1 without printing
and still never call publish. -/
theorem c8_dry_run_never_publishes (args : Args) (config : Config)
    (w : MainWorld) (hdry : args.dryRun = true) :
    (mainRun args config w).publishCalls = 0 ∧
    (args.showConfig = false →
      ((mainRun args config w).exit = 0 ↔
        (mainRun args config w).printedDryRun = true)) := by
  rcases args with ⟨dr, up2, sc, rp⟩
  simp only at hdry
  subst hdry
  unfold mainRun
  dsimp only
  repeat' split
  all_goals simp_all

/-- Witness for C8: a dry run in fresh-generation mode with a configured
signer neither calls publish nor exits nonzero without printing. -/
theorem c8_witness :
    (mainRun ⟨true, false, false, false⟩ ⟨none, some "aa"⟩
      mwDummy).publishCalls = 0 ∧
    ((⟨true, false, false, false⟩ : Args).showConfig = false →
      ((mainRun ⟨true, false, false, false⟩ ⟨none, some "aa"⟩
          mwDummy).exit = 0 ↔
        (mainRun ⟨true, false, false, false⟩ ⟨none, some "aa"⟩
          mwDummy).printedDryRun = true)) :=
  c8_dry_run_never_publishes ⟨true, false, false, false⟩ ⟨none, some "aa"⟩
    mwDummy rfl

/-- Claim C8 counterexample: a dry-run invocation in fresh-generation
mode with no signer configured exits 1 from the up-front signer check
without ever printing the final message text — refuting the claim that
every dry-run execution prints the message — while `publish_note` is
indeed never called. -/
theorem c8_counterexample :
    (mainRun ⟨true, false, false, false⟩ ⟨none, none⟩ mwDummy).exit = 1 ∧
    (mainRun ⟨true, false, false, false⟩ ⟨none, none⟩
      mwDummy).printedDryRun = false ∧
    (mainRun ⟨true, false, false, false⟩ ⟨none, none⟩
      mwDummy).publishCalls = 0 := by
  decide

end NstrReport
